import Mathlib

/-!
Shallow embedding of `tools/clash_cli.py` (clash-for-linux), a command-line
controller for a Clash daemon REST API.  Pure fragments of the script are
translated into Lean functions; effects (HTTP requests, file access,
printing) are made explicit: the server state or the probe outcome is a
function argument, and produced output lines are returned as values.
-/

namespace ClashCli

/-- A single-quote character, used in messages copied from the source. -/
def squote : String := "\x27"

/-- JSON scalar values as they occur in the on-disk config document
(`json.load` and `json.dump` in `load_config` and `save_config`). -/
inductive JVal where
  | str : String → JVal
  | num : Int → JVal
  | bool : Bool → JVal
  | null : JVal
  deriving DecidableEq, Repr

/-- The persisted config store: a Python `dict` in insertion order
(`load_config`, clash_cli.py lines 118-126; an absent file is `{}`). -/
abbrev Store := List (String × JVal)

/-- Python `d.get(k)` on the store: the binding of `k` if any (keys of a
dict are unique, the first match is the binding). -/
def dictGet : Store → String → Option JVal
  | [], _ => none
  | (k0, v) :: rest, k => if k0 = k then some v else dictGet rest k

/-- Python `d[k] = v`: replace in place when the key exists, keeping its
position, else append at the end (dict insertion-order semantics). -/
def dictSet : Store → String → JVal → Store
  | [], k, v => [(k, v)]
  | (k0, v0) :: rest, k, v =>
    if k0 = k then (k, v) :: rest else (k0, v0) :: dictSet rest k v

/-- Python f-string rendering of a JSON scalar. -/
def pyStr : JVal → String
  | .str s => s
  | .num n => toString n
  | .bool true => "True"
  | .bool false => "False"
  | .null => "None"

/-- Python truthiness of a JSON scalar, as used by `v or default`. -/
def pyTruthy : JVal → Bool
  | .str s => !(s == "")
  | .num n => !(n == 0)
  | .bool b => b
  | .null => false

/-- Python `", ".join(xs)`. -/
def joinComma : List String → String
  | [] => ""
  | [x] => x
  | x :: y :: rest => x ++ ", " ++ joinComma (y :: rest)

/-- Model of CPython `set(xs)` as a collection: the distinct elements of
`xs`.  CPython iterates a set of strings in hash order, which is
seed-dependent; we fix first-occurrence order as one admissible
enumeration and prove only enumeration-order-independent facts about it
(membership, no duplicates, and a duplicate-dropping counterexample on a
singleton set, where every enumeration coincides). -/
def pySetElems (xs : List String) : List String := xs.dedup

/-- clash_cli.py line 21:
`DEFAULT_HOST = os.getenv("CLASH_API_HOST", "127.0.0.1:9090")`. -/
def DEFAULT_HOST (envHost : Option String) : String :=
  envHost.getD "127.0.0.1:9090"

/-- clash_cli.py line 22: `DEFAULT_SECRET = os.getenv("CLASH_API_SECRET")`. -/
def DEFAULT_SECRET (envSecret : Option String) : Option String := envSecret

/-- clash_cli.py line 196:
`host = args.host if args.host is not None else stored.get("host", DEFAULT_HOST)`;
`storedHost` is the optional `host` entry of the persisted store. -/
def effectiveHost (flagHost storedHost envHost : Option String) : String :=
  match flagHost with
  | some h => h
  | none => storedHost.getD (DEFAULT_HOST envHost)

/-- clash_cli.py line 197:
`secret = args.secret if args.secret is not None else stored.get("secret", DEFAULT_SECRET)`. -/
def effectiveSecret (flagSecret storedSecret envSecret : Option String) :
    Option String :=
  match flagSecret with
  | some s => some s
  | none =>
    match storedSecret with
    | some s => some s
    | none => DEFAULT_SECRET envSecret

/-- The fields of a proxy entry that clash_cli.py reads:
`info.get("type")`, `info.get("now")`, `info.get("all", [])` and
`info.get("udp")`.  `none` models an absent key; `all` models
`info.get("all", [])`, so an absent member list is the empty list. -/
structure ProxyInfo where
  type : Option String
  now : Option String
  all : List String
  udp : Option Bool
  deriving DecidableEq, Repr

/-- clash_cli.py lines 78-79: membership of `proxy_info.get("type")` in
the four group kinds. -/
def is_selector (info : ProxyInfo) : Bool :=
  info.type == some "Selector" || info.type == some "URLTest" ||
    info.type == some "Fallback" || info.type == some "LoadBalance"

/-- clash_cli.py lines 86-90: the entries printed under the policy-group
header, in server (dict iteration) order. -/
def groupEntries (ps : List (String × ProxyInfo)) : List (String × ProxyInfo) :=
  ps.filter (fun p => is_selector p.2)

/-- clash_cli.py lines 93-95: the entries printed under the endpoint-node
header, in server (dict iteration) order. -/
def nodeEntries (ps : List (String × ProxyInfo)) : List (String × ProxyInfo) :=
  ps.filter (fun p => !is_selector p.2)

/-- Python f-string rendering of `info.get("now")`: `None` when absent. -/
def pyOptStr : Option String → String
  | some s => s
  | none => "None"

/-- clash_cli.py line 90: the rendered group line. -/
def groupLine (name : String) (info : ProxyInfo) : String :=
  name ++ " [" ++ info.type.getD "?" ++ "]: now=" ++ pyOptStr info.now ++
    "; members=" ++ joinComma info.all

/-- The member rendering the spec asks for (section 3: order is meaningful
and must be preserved): the members joined verbatim in server order. -/
def specMembersText (members : List String) : String := joinComma members

/-- Errors that can escape `nodes_from_group`: the `HTTPError` that
`urllib.request.urlopen` raises when the daemon answers 404 to
`GET /proxies/{name}` for an unknown name, and the `ValueError` raised at
clash_cli.py line 101. -/
inductive CliErr where
  | httpNotFound (name : String) : CliErr
  | valueError (msg : String) : CliErr
  deriving DecidableEq, Repr

/-- clash_cli.py line 101: the `ValueError` message. -/
def notAGroupMsg (group : String) : String :=
  squote ++ group ++ squote ++ " 不是策略组（Selector/URLTest 等）。"

/-- clash_cli.py lines 98-102.  `server` is the current proxy table of
the daemon as served by `GET /proxies/{name}`; the daemon answers 404 for
an absent name, which the transport surfaces as an `HTTPError`. -/
def nodes_from_group (server : String → Option ProxyInfo) (group : String) :
    Except CliErr (List String) :=
  match server group with
  | none => .error (.httpNotFound group)
  | some info =>
    if is_selector info then .ok info.all
    else .error (.valueError (notAGroupMsg group))

/-- clash_cli.py lines 109-113: `result.get("delay")` checked and
rendered; `none` models both an absent `delay` key and JSON null. -/
def renderDelay (name : String) (delay : Option Int) : String :=
  match delay with
  | none => name ++ ": timeout/no response"
  | some d =>
    if d < 0 then name ++ ": timeout/no response"
    else name ++ ": " ++ toString d ++ " ms"

/-- clash_cli.py line 115: the per-target failure line (stderr). -/
def errLine (name exc : String) : String :=
  name ++ ": request failed (" ++ exc ++ ")"

/-- clash_cli.py lines 105-115.  `probe name` is the outcome of
`client.delay(name, url, timeout)`: an error message when the request
raises, otherwise the optional `delay` field of the response.  Returns
the pair (stdout lines, stderr lines), each in emission order. -/
def test_delays (probe : String → Except String (Option Int)) :
    List String → List String × List String
  | [] => ([], [])
  | name :: rest =>
    match probe name with
    | .ok delay =>
      let r := test_delays probe rest
      (renderDelay name delay :: r.1, r.2)
    | .error exc =>
      let r := test_delays probe rest
      (r.1, errLine name exc :: r.2)

/-- A concrete probe: target n2 raises, every other target answers 10 ms. -/
def probeEx : String → Except String (Option Int) :=
  fun n => if n = "n2" then .error "boom" else .ok (some 10)

/-- clash_cli.py line 222: the rejection message of `switch --validate`;
the members are joined after `set()` conversion (line 220). -/
def switchRejectMsg (group node : String) (members : List String) : String :=
  "节点 " ++ squote ++ node ++ squote ++ " 不在策略组 " ++ squote ++ group ++
    squote ++ " 中。成员：" ++ joinComma (pySetElems members)

/-- Outcome of the `switch` command, clash_cli.py lines 218-226: either
the validation rejection (message printed, exit status 1, no PUT issued),
or the mutating PUT call on the group with the node name as body. -/
inductive SwitchResult where
  | rejected (msg : String) : SwitchResult
  | putIssued (group node : String) : SwitchResult
  deriving DecidableEq, Repr

/-- clash_cli.py lines 218-226.  `members` is the list returned by
`nodes_from_group(client, group)`; it is fetched and consulted only when
`validate` is set (line 219-220). -/
def switchCmd (group node : String) (validate : Bool)
    (members : List String) : SwitchResult :=
  if validate && !((pySetElems members).contains node) then
    .rejected (switchRejectMsg group node members)
  else
    .putIssued group node

/-- Observable outcome of the `config` sub-command, clash_cli.py lines
177-193: the store written by `save_config` (if any) and the two lines
printed by the show branch (if taken).  The progress line printed by
`save_config` and the file path are not modelled. -/
structure ConfigCmdOut where
  savedStore : Option Store
  shownHost : Option String
  shownSecret : Option String
  deriving DecidableEq, Repr

/-- clash_cli.py line 192: the value rendered by
`print(f"secret: ...")` after `secret_val or ...`; `none` is Python
`None` (key absent and `DEFAULT_SECRET` unset). -/
def renderShownSecret : Option JVal → String
  | none => "(empty)"
  | some v => if pyTruthy v then pyStr v else "(empty)"

/-- clash_cli.py lines 177-193.  `stored` is `load_config(config_path)`;
a `save_config` followed by a later `load_config` of the same file is
modelled as the identity on the store (the `json.dump` and `json.load`
round-trip on a JSON object of scalars). -/
def configCmd (stored : Store) (hostFlag secretFlag : Option String)
    (showFlag : Bool) (envHost envSecret : Option String) : ConfigCmdOut :=
  let updated1 :=
    match hostFlag with
    | some h => dictSet stored "host" (.str h)
    | none => stored
  let updated :=
    match secretFlag with
    | some s => dictSet updated1 "secret" (.str s)
    | none => updated1
  let changed := hostFlag.isSome || secretFlag.isSome
  let saved := if changed then some updated else none
  if showFlag || !changed then
    { savedStore := saved
      shownHost := some ("host: " ++
        pyStr ((dictGet updated "host").getD (.str (DEFAULT_HOST envHost))))
      shownSecret := some ("secret: " ++ renderShownSecret
        (match dictGet updated "secret" with
         | some v => some v
         | none => (DEFAULT_SECRET envSecret).map JVal.str)) }
  else
    { savedStore := saved, shownHost := none, shownSecret := none }

/-! Helper lemmas shared by the claim theorems. -/

/-- Looking up the key just written returns the written value. -/
theorem dictGet_dictSet_self (st : Store) (k : String) (v : JVal) :
    dictGet (dictSet st k v) k = some v := by
  induction st with
  | nil => simp [dictSet, dictGet]
  | cons hd tl ih =>
    obtain ⟨k0, v0⟩ := hd
    by_cases h : k0 = k
    · subst h; simp [dictSet, dictGet]
    · simp [dictSet, dictGet, h, ih]

/-- Writing one key leaves the lookup of every other key unchanged. -/
theorem dictGet_dictSet_other (st : Store) (k k1 : String) (v : JVal)
    (h : k1 ≠ k) : dictGet (dictSet st k v) k1 = dictGet st k1 := by
  induction st with
  | nil => simp [dictSet, dictGet, Ne.symm h]
  | cons hd tl ih =>
    obtain ⟨k0, v0⟩ := hd
    by_cases h0 : k0 = k
    · subst h0; simp [dictSet, dictGet, Ne.symm h]
    · simp [dictSet, dictGet, h0, ih]

/-- `test_delays` processes a concatenation of target lists exactly as the
two lists one after the other, on both streams. -/
theorem test_delays_append (probe : String → Except String (Option Int))
    (xs ys : List String) :
    test_delays probe (xs ++ ys) =
      ((test_delays probe xs).1 ++ (test_delays probe ys).1,
       (test_delays probe xs).2 ++ (test_delays probe ys).2) := by
  induction xs with
  | nil => simp [test_delays]
  | cons name rest ih =>
    cases h : probe name <;> simp [test_delays, h, ih]

/-- C1: for each field (host, secret) independently, the effective value
is the flag when present, else the stored value when present, else the
environment value when present, else the built-in default (127.0.0.1:9090
for host, absent for secret); the four cases cover all eight presence
combinations per field. -/
theorem config_precedence (fh sh eh fs ss es : Option String) :
    (∀ a, fh = some a → effectiveHost fh sh eh = a) ∧
    (fh = none → ∀ b, sh = some b → effectiveHost fh sh eh = b) ∧
    (fh = none → sh = none → ∀ c, eh = some c → effectiveHost fh sh eh = c) ∧
    (fh = none → sh = none → eh = none →
      effectiveHost fh sh eh = "127.0.0.1:9090") ∧
    (∀ a, fs = some a → effectiveSecret fs ss es = some a) ∧
    (fs = none → ∀ b, ss = some b → effectiveSecret fs ss es = some b) ∧
    (fs = none → ss = none → ∀ c, es = some c →
      effectiveSecret fs ss es = some c) ∧
    (fs = none → ss = none → es = none → effectiveSecret fs ss es = none) := by
  refine ⟨?_, ?_, ?_, ?_, ?_, ?_, ?_, ?_⟩ <;>
    · intros
      subst_vars
      simp [effectiveHost, effectiveSecret, DEFAULT_HOST, DEFAULT_SECRET]

/-- Witness for C1 at concrete tier values. -/
theorem config_precedence_witness :
    effectiveHost (some "A") (some "B") (some "C") = "A" ∧
    effectiveHost none (some "B") (some "C") = "B" ∧
    effectiveHost none none (some "C") = "C" ∧
    effectiveHost none none none = "127.0.0.1:9090" ∧
    effectiveSecret none none (some "C") = some "C" ∧
    effectiveSecret none none none = none := by
  refine ⟨?_, ?_, ?_, ?_, ?_, ?_⟩
  · exact (config_precedence (some "A") (some "B") (some "C")
      none none none).1 "A" rfl
  · exact (config_precedence none (some "B") (some "C")
      none none none).2.1 rfl "B" rfl
  · exact (config_precedence none none (some "C")
      none none none).2.2.1 rfl rfl "C" rfl
  · exact (config_precedence none none none none none none).2.2.2.1 rfl rfl rfl
  · exact (config_precedence none none none
      none none (some "C")).2.2.2.2.2.2.1 rfl rfl "C" rfl
  · exact (config_precedence none none none
      none none none).2.2.2.2.2.2.2 rfl rfl rfl

/-- C2: when the probe of one target raises, that target contributes
exactly one failure line on the error stream, and the batch output is the
output of the earlier targets followed by the output of the later
targets, both in input order: one bad node never aborts the batch. -/
theorem ping_probe_failure_isolated
    (probe : String → Except String (Option Int)) (pre post : List String)
    (bad exc : String) (h : probe bad = .error exc) :
    test_delays probe (pre ++ bad :: post) =
      ((test_delays probe pre).1 ++ (test_delays probe post).1,
       (test_delays probe pre).2 ++
         errLine bad exc :: (test_delays probe post).2) := by
  rw [test_delays_append]
  simp [test_delays, h]

/-- Witness for C2: probing n1, n2, n3 where n2 raises reports n2 on the
error stream and still probes n1 and n3. -/
theorem ping_probe_failure_isolated_witness :
    test_delays probeEx ["n1", "n2", "n3"] =
      (["n1: 10 ms", "n3: 10 ms"], ["n2: request failed (boom)"]) := by
  have h := ping_probe_failure_isolated probeEx ["n1"] ["n3"] "n2" "boom" rfl
  exact h.trans (by decide)

/-- C4: an absent or null delay and any negative delay render as the
timeout line; a non-negative delay d renders as "d ms". -/
theorem delay_normalization (name : String) :
    renderDelay name none = name ++ ": timeout/no response" ∧
    (∀ d : Int, d < 0 →
      renderDelay name (some d) = name ++ ": timeout/no response") ∧
    (∀ d : Int, 0 ≤ d →
      renderDelay name (some d) = name ++ ": " ++ toString d ++ " ms") := by
  refine ⟨rfl, ?_, ?_⟩
  · intro d hd; simp [renderDelay, hd]
  · intro d hd; simp [renderDelay, not_lt.mpr hd]

/-- Witness for C4 at delay -1, absent, and 42. -/
theorem delay_normalization_witness :
    renderDelay "n1" none = "n1: timeout/no response" ∧
    renderDelay "n1" (some (-1)) = "n1: timeout/no response" ∧
    renderDelay "n1" (some 42) = "n1: 42 ms" := by
  refine ⟨(delay_normalization "n1").1, ?_, ?_⟩
  · exact (delay_normalization "n1").2.1 (-1) (by decide)
  · exact ((delay_normalization "n1").2.2 42 (by decide)).trans (by decide)

/-- Membership in the set conversion of a list agrees with membership in
the list itself (Python set membership test). -/
theorem pySetElems_contains_iff (xs : List String) (a : String) :
    (pySetElems xs).contains a = true ↔ a ∈ xs := by
  simp [pySetElems, List.contains, List.elem_iff, List.mem_dedup]

/-- C3: with validate requested, the switch command rejects with the
message listing the group members and issues no PUT when the node is not
a member, and issues the PUT exactly when the node is a member. -/
theorem switch_validate_spec (group node : String) (members : List String) :
    (node ∉ members →
      switchCmd group node true members =
        .rejected (switchRejectMsg group node members)) ∧
    (node ∈ members →
      switchCmd group node true members = .putIssued group node) ∧
    (∀ g n, SwitchResult.rejected (switchRejectMsg group node members) ≠
      .putIssued g n) := by
  refine ⟨?_, ?_, ?_⟩
  · intro h
    have hm : node ∉ pySetElems members :=
      fun hx => h (List.mem_dedup.mp hx)
    simp [switchCmd, hm]
  · intro h
    have hm : node ∈ pySetElems members := List.mem_dedup.mpr h
    simp [switchCmd, hm]
  · intro g n hEq
    exact SwitchResult.noConfusion hEq

/-- Witness for C3: nodeX is rejected for a group with members a, b; node
a is switched to with a PUT. -/
theorem switch_validate_spec_witness :
    switchCmd "Proxy" "nodeX" true ["a", "b"] =
      .rejected (switchRejectMsg "Proxy" "nodeX" ["a", "b"]) ∧
    switchCmd "Proxy" "a" true ["a", "b"] = .putIssued "Proxy" "a" := by
  refine ⟨?_, ?_⟩
  · exact (switch_validate_spec "Proxy" "nodeX" ["a", "b"]).1 (by decide)
  · exact (switch_validate_spec "Proxy" "a" ["a", "b"]).2.1 (by decide)

/-- C5: an entry is classified as a group exactly when its type field is
one of the four group kinds, and the group entries and node entries of a
snapshot partition it with no entry in both parts. -/
theorem group_classification (info : ProxyInfo)
    (ps : List (String × ProxyInfo)) (p : String × ProxyInfo) :
    (is_selector info = true ↔
      (info.type = some "Selector" ∨ info.type = some "URLTest" ∨
       info.type = some "Fallback" ∨ info.type = some "LoadBalance")) ∧
    (p ∈ groupEntries ps ↔ p ∈ ps ∧ is_selector p.2 = true) ∧
    (p ∈ nodeEntries ps ↔ p ∈ ps ∧ is_selector p.2 = false) ∧
    ¬(p ∈ groupEntries ps ∧ p ∈ nodeEntries ps) := by
  refine ⟨?_, ?_, ?_, ?_⟩
  · simp [is_selector, or_assoc]
  · simp [groupEntries, List.mem_filter]
  · simp [nodeEntries, List.mem_filter]
  · rintro ⟨h1, h2⟩
    rw [groupEntries, List.mem_filter] at h1
    rw [nodeEntries, List.mem_filter] at h2
    rw [h1.2] at h2
    exact Bool.noConfusion h2.2

/-- Witness for C5 on a concrete snapshot of one group and one node. -/
theorem group_classification_witness :
    is_selector ⟨some "URLTest", none, [], none⟩ = true ∧
    ("G", (⟨some "Selector", some "a", ["a"], none⟩ : ProxyInfo)) ∈
      groupEntries [("G", ⟨some "Selector", some "a", ["a"], none⟩),
        ("n", ⟨some "Shadowsocks", none, [], some true⟩)] := by
  refine ⟨?_, ?_⟩
  · exact (group_classification ⟨some "URLTest", none, [], none⟩
      [] ("x", ⟨none, none, [], none⟩)).1.mpr (Or.inr (Or.inl rfl))
  · exact (group_classification ⟨none, none, [], none⟩
      [("G", ⟨some "Selector", some "a", ["a"], none⟩),
       ("n", ⟨some "Shadowsocks", none, [], some true⟩)]
      ("G", ⟨some "Selector", some "a", ["a"], none⟩)).2.1.mpr
      ⟨by decide, by decide⟩

/-- C6 counterexample: with no host flag and no stored host but with the
host environment variable set, the effective host is the environment
value, not the built-in default — the host field does have an environment
tier (DEFAULT_HOST, clash_cli.py line 21). -/
theorem host_env_tier_counterexample :
    effectiveHost none none (some "10.0.0.1:9999") = "10.0.0.1:9999" ∧
    ("10.0.0.1:9999" : String) ≠ "127.0.0.1:9090" :=
  ⟨rfl, by decide⟩

/-- C6 amended: when neither a host flag nor a stored host is present,
the effective host is the host environment value when set, else the
built-in default 127.0.0.1:9090. -/
theorem host_fallback_amended (envHost : Option String) :
    (envHost = none → effectiveHost none none envHost = "127.0.0.1:9090") ∧
    (∀ e, envHost = some e → effectiveHost none none envHost = e) := by
  constructor
  · rintro rfl; rfl
  · rintro e rfl; rfl

/-- Witness for the amended C6 at a set and an unset environment. -/
theorem host_fallback_amended_witness :
    effectiveHost none none none = "127.0.0.1:9090" ∧
    effectiveHost none none (some "192.168.0.2:9090") = "192.168.0.2:9090" :=
  ⟨(host_fallback_amended none).1 rfl,
   (host_fallback_amended (some "192.168.0.2:9090")).2 "192.168.0.2:9090" rfl⟩

/-- C7: member resolution fails with the 404 transport error when the
name is absent from the server, fails with the distinct ValueError when
the entry exists but is not a group, and returns the member list read
from the current server state when the entry is a group. -/
theorem nodes_from_group_spec (server : String → Option ProxyInfo)
    (group : String) :
    (server group = none →
      nodes_from_group server group = .error (.httpNotFound group)) ∧
    (∀ info, server group = some info → is_selector info = false →
      nodes_from_group server group =
        .error (.valueError (notAGroupMsg group))) ∧
    (∀ info, server group = some info → is_selector info = true →
      nodes_from_group server group = .ok info.all) ∧
    CliErr.valueError (notAGroupMsg group) ≠ CliErr.httpNotFound group := by
  refine ⟨?_, ?_, ?_, ?_⟩
  · intro h; simp [nodes_from_group, h]
  · intro info h hsel; simp [nodes_from_group, h, hsel]
  · intro info h hsel; simp [nodes_from_group, h, hsel]
  · intro h; exact CliErr.noConfusion h

/-- A concrete proxy table: one Selector group, one leaf node. -/
def serverEx : String → Option ProxyInfo :=
  fun n =>
    if n = "Proxy" then some ⟨some "Selector", some "a", ["a", "b"], none⟩
    else if n = "a" then some ⟨some "Shadowsocks", none, [], some true⟩
    else none

/-- Witness for C7 on the concrete proxy table. -/
theorem nodes_from_group_spec_witness :
    nodes_from_group serverEx "Proxy" = .ok ["a", "b"] ∧
    nodes_from_group serverEx "a" = .error (.valueError (notAGroupMsg "a")) ∧
    nodes_from_group serverEx "ghost" = .error (.httpNotFound "ghost") := by
  refine ⟨?_, ?_, ?_⟩
  · exact (nodes_from_group_spec serverEx "Proxy").2.2.1
      ⟨some "Selector", some "a", ["a", "b"], none⟩ (by decide) (by decide)
  · exact (nodes_from_group_spec serverEx "a").2.1
      ⟨some "Shadowsocks", none, [], some true⟩ (by decide) (by decide)
  · exact (nodes_from_group_spec serverEx "ghost").1 (by decide)

/-- C8 counterexample: persisting host "h" and secret "" and then running
config with show and no flags renders the secret line as "(empty)"
(clash_cli.py line 192, the `or` fallback), not as the empty string, so
the secret is not reported exactly for every value. -/
theorem config_roundtrip_counterexample :
    (configCmd [] (some "h") (some "") false none none).savedStore =
      some [("host", JVal.str "h"), ("secret", JVal.str "")] ∧
    (configCmd [("host", JVal.str "h"), ("secret", JVal.str "")]
      none none true none none).shownSecret = some "secret: (empty)" ∧
    ("secret: (empty)" : String) ≠ "secret: " ++ "" := by
  refine ⟨by decide, by decide, by decide⟩

/-- C8 amended: running config with host H and secret S persists exactly
H and S in the store, and a fresh show invocation with no flags reports
exactly H as the host and, whenever S is non-empty, exactly S as the
secret; an empty secret is reported as "(empty)". -/
theorem config_roundtrip_amended (stored : Store) (H S : String)
    (envH envS : Option String) (hS : S ≠ "") :
    ∀ st1,
      (configCmd stored (some H) (some S) false envH envS).savedStore =
        some st1 →
      dictGet st1 "host" = some (.str H) ∧
      dictGet st1 "secret" = some (.str S) ∧
      (configCmd st1 none none true envH envS).shownHost =
        some ("host: " ++ H) ∧
      (configCmd st1 none none true envH envS).shownSecret =
        some ("secret: " ++ S) := by
  intro st1 hsave
  have hst : st1 = dictSet (dictSet stored "host" (.str H)) "secret" (.str S) := by
    simp [configCmd] at hsave
    exact hsave.symm
  subst hst
  have hhost :
      dictGet (dictSet (dictSet stored "host" (.str H)) "secret" (.str S))
        "host" = some (.str H) := by
    rw [dictGet_dictSet_other _ _ _ _ (by decide)]
    exact dictGet_dictSet_self _ _ _
  have hsec :
      dictGet (dictSet (dictSet stored "host" (.str H)) "secret" (.str S))
        "secret" = some (.str S) :=
    dictGet_dictSet_self _ _ _
  refine ⟨hhost, hsec, ?_, ?_⟩
  · simp [configCmd, hhost, pyStr]
  · simp [configCmd, hsec, renderShownSecret, pyTruthy, pyStr, hS]

/-- Witness for the amended C8 at host "myhost", secret "s3cr3t". -/
theorem config_roundtrip_amended_witness :
    dictGet [("host", JVal.str "myhost"), ("secret", JVal.str "s3cr3t")]
      "secret" = some (JVal.str "s3cr3t") ∧
    (configCmd [("host", JVal.str "myhost"), ("secret", JVal.str "s3cr3t")]
      none none true none none).shownHost = some ("host: " ++ "myhost") ∧
    (configCmd [("host", JVal.str "myhost"), ("secret", JVal.str "s3cr3t")]
      none none true none none).shownSecret =
        some ("secret: " ++ "s3cr3t") := by
  have h := config_roundtrip_amended [] "myhost" "s3cr3t" none none
    (by decide) [("host", JVal.str "myhost"), ("secret", JVal.str "s3cr3t")]
    (by decide)
  exact ⟨h.2.1, h.2.2.1, h.2.2.2⟩

/-- C9 counterexample: for the member sequence with a duplicate, the
rejection message of switch with validate renders the members through
set() conversion and so drops the duplicate: it differs from the message
that renders the server-ordered sequence verbatim.  The set here is a
singleton, so this does not depend on the modelled enumeration order. -/
theorem member_order_counterexample :
    switchRejectMsg "G" "x" ["a", "a"] ≠
      "节点 " ++ squote ++ "x" ++ squote ++ " 不在策略组 " ++ squote ++ "G" ++
        squote ++ " 中。成员：" ++ specMembersText ["a", "a"] := by
  decide

/-- C9 amended: the list rendering preserves the server member order (the
group line joins the member sequence verbatim), while the rejection
message of switch with validate lists the set() of the members: each
distinct member exactly once, with duplicates dropped and the enumeration
order implementation-defined, so it need not reproduce the ordered
sequence. -/
theorem member_order_amended (name : String) (info : ProxyInfo)
    (members : List String) (m : String) :
    groupLine name info =
      name ++ " [" ++ info.type.getD "?" ++ "]: now=" ++ pyOptStr info.now ++
        "; members=" ++ specMembersText info.all ∧
    (m ∈ pySetElems members ↔ m ∈ members) ∧
    (pySetElems members).Nodup := by
  refine ⟨rfl, ?_, ?_⟩
  · exact List.mem_dedup
  · exact List.nodup_dedup members

/-- Witness for the amended C9 on a member list with a duplicate. -/
theorem member_order_amended_witness :
    ("b" ∈ pySetElems ["a", "b", "a"]) ∧
    (pySetElems ["a", "b", "a"]).Nodup := by
  have h := member_order_amended "G" ⟨some "Selector", none, ["a"], none⟩
    ["a", "b", "a"] "b"
  exact ⟨h.2.1.mpr (by decide), h.2.2⟩

/-- C10: the config sub-command that sets only the host rewrites the
store with the host updated while the lookup of every other key,
including secret and unrecognized keys, is unchanged. -/
theorem config_set_host_frame (stored : Store) (h : String)
    (envH envS : Option String) (showFlag : Bool) :
    ∀ st1,
      (configCmd stored (some h) none showFlag envH envS).savedStore =
        some st1 →
      dictGet st1 "host" = some (.str h) ∧
      ∀ k, k ≠ "host" → dictGet st1 k = dictGet stored k := by
  intro st1 hsave
  have hst : st1 = dictSet stored "host" (.str h) := by
    cases showFlag <;> simp [configCmd] at hsave <;> exact hsave.symm
  subst hst
  exact ⟨dictGet_dictSet_self _ _ _,
    fun k hk => dictGet_dictSet_other _ _ _ _ hk⟩

/-- Witness for C10: setting only the host over a store holding a secret
and an unrecognized numeric key keeps both other bindings intact. -/
theorem config_set_host_frame_witness :
    dictGet [("secret", JVal.str "s"), ("extra", JVal.num 7),
      ("host", JVal.str "newhost")] "host" = some (JVal.str "newhost") ∧
    dictGet [("secret", JVal.str "s"), ("extra", JVal.num 7),
      ("host", JVal.str "newhost")] "secret" =
      dictGet [("secret", JVal.str "s"), ("extra", JVal.num 7)] "secret" ∧
    dictGet [("secret", JVal.str "s"), ("extra", JVal.num 7),
      ("host", JVal.str "newhost")] "extra" =
      dictGet [("secret", JVal.str "s"), ("extra", JVal.num 7)] "extra" := by
  have h := config_set_host_frame
    [("secret", JVal.str "s"), ("extra", JVal.num 7)] "newhost"
    none none false
    [("secret", JVal.str "s"), ("extra", JVal.num 7),
      ("host", JVal.str "newhost")] (by decide)
  exact ⟨h.1, h.2 "secret" (by decide), h.2 "extra" (by decide)⟩

end ClashCli
